import Mathlib

/-!
Verification of the SPDF-V2 electron-configuration builder
(src/electron_config.js) and the orbital angular-amplitude / nodal-surface
model (src/orbitals.js), as a shallow embedding in Lean.

JavaScript numbers that only ever hold small integers (atomic numbers,
electron counts, capacities) are embedded as `Int`/`Nat`; the real-valued
trigonometric amplitude math is embedded over `ℝ`, with `Math.atan2 (y, x)`
as the argument of the complex number `x + y i`.
-/

namespace SPDF

/-- One row of the fixed filling-order table `ORBITAL_ORDER`
(src/electron_config.js lines 1-21): shell number `n`, subshell letter `l`,
and capacity. -/
structure Orbital where
  n : Nat
  l : String
  capacity : Int
deriving DecidableEq

/-- A configuration entry `{ n, l, capacity, electrons }` as built by
`buildElectronConfiguration` and mutated by `applyExceptions`. -/
structure Subshell where
  n : Nat
  l : String
  capacity : Int
  electrons : Int
deriving DecidableEq

/-- The 19-slot filling-order table (src/electron_config.js lines 1-21). -/
def ORBITAL_ORDER : List Orbital :=
  [⟨1, "s", 2⟩, ⟨2, "s", 2⟩, ⟨2, "p", 6⟩, ⟨3, "s", 2⟩, ⟨3, "p", 6⟩,
   ⟨4, "s", 2⟩, ⟨3, "d", 10⟩, ⟨4, "p", 6⟩, ⟨5, "s", 2⟩, ⟨4, "d", 10⟩,
   ⟨5, "p", 6⟩, ⟨6, "s", 2⟩, ⟨4, "f", 14⟩, ⟨5, "d", 10⟩, ⟨6, "p", 6⟩,
   ⟨7, "s", 2⟩, ⟨5, "f", 14⟩, ⟨6, "d", 10⟩, ⟨7, "p", 6⟩]

/-- `ORDER_INDEX.get` (src/electron_config.js line 23): the filling-order
index of a subshell key, `none` when the key is not in the table. The JS map
is keyed by the string `n + l`, which is in bijection with the `(n, l)`
pairs occurring here, so we look the pair up directly. -/
def orderIndex (n : Nat) (l : String) : Option Nat :=
  ORBITAL_ORDER.findIdx? (fun o => o.n == n && o.l == l)

/-- One side of an exception rule: `{ n, l, count }`. -/
structure Transfer where
  n : Nat
  l : String
  count : Int
deriving DecidableEq

/-- One exception rule `{ from, to }` (`from` is a Lean keyword, so the
fields are named `src`/`dst`). Every rule in the source table has both
clauses. -/
structure ExceptionOp where
  src : Transfer
  dst : Transfer
deriving DecidableEq

/-- The exception table `EXCEPTION_ADJUSTMENTS`
(src/electron_config.js lines 25-46), keyed by atomic number. -/
def EXCEPTION_ADJUSTMENTS : List (Int × List ExceptionOp) :=
  [(24, [⟨⟨4, "s", 1⟩, ⟨3, "d", 1⟩⟩]),
   (29, [⟨⟨4, "s", 1⟩, ⟨3, "d", 1⟩⟩]),
   (41, [⟨⟨5, "s", 1⟩, ⟨4, "d", 1⟩⟩]),
   (42, [⟨⟨5, "s", 1⟩, ⟨4, "d", 1⟩⟩]),
   (44, [⟨⟨5, "s", 1⟩, ⟨4, "d", 1⟩⟩]),
   (45, [⟨⟨5, "s", 1⟩, ⟨4, "d", 1⟩⟩]),
   (46, [⟨⟨5, "s", 2⟩, ⟨4, "d", 2⟩⟩]),
   (47, [⟨⟨5, "s", 1⟩, ⟨4, "d", 1⟩⟩]),
   (57, [⟨⟨4, "f", 1⟩, ⟨5, "d", 1⟩⟩]),
   (58, [⟨⟨4, "f", 1⟩, ⟨5, "d", 1⟩⟩]),
   (64, [⟨⟨4, "f", 1⟩, ⟨5, "d", 1⟩⟩]),
   (78, [⟨⟨6, "s", 1⟩, ⟨5, "d", 1⟩⟩]),
   (79, [⟨⟨6, "s", 1⟩, ⟨5, "d", 1⟩⟩]),
   (89, [⟨⟨5, "f", 1⟩, ⟨6, "d", 1⟩⟩]),
   (90, [⟨⟨5, "f", 2⟩, ⟨6, "d", 2⟩⟩]),
   (91, [⟨⟨5, "f", 1⟩, ⟨6, "d", 1⟩⟩]),
   (92, [⟨⟨5, "f", 1⟩, ⟨6, "d", 1⟩⟩]),
   (93, [⟨⟨5, "f", 1⟩, ⟨6, "d", 1⟩⟩]),
   (96, [⟨⟨5, "f", 1⟩, ⟨6, "d", 1⟩⟩]),
   (103, [⟨⟨6, "d", 1⟩, ⟨7, "p", 1⟩⟩])]

/-- `ensureEntry` (src/electron_config.js lines 48-69). The JS function
returns the (possibly newly inserted) entry by reference; here we return the
updated list together with the index of that entry, so callers can update it
with `List.set`. `none` means the JS function returned `null` (no template
in `ORBITAL_ORDER`). -/
def ensureEntry (config : List Subshell) (n : Nat) (l : String) :
    List Subshell × Option Nat :=
  match config.findIdx? (fun c => c.n == n && c.l == l) with
  | some i => (config, some i)
  | none =>
    match ORBITAL_ORDER.find? (fun o => o.n == n && o.l == l) with
    | none => (config, none)
    | some template =>
      let entry : Subshell := ⟨n, l, template.capacity, 0⟩
      match orderIndex n l with
      | none => (config ++ [entry], some config.length)
      | some oi =>
        let insertAt :=
          (config.findIdx? (fun c =>
            match orderIndex c.n c.l with
            | some idx => oi < idx
            | none => false)).getD config.length
        (config.take insertAt ++ entry :: config.drop insertAt, some insertAt)

/-- The body of the `ops.forEach` callback in `applyExceptions`
(src/electron_config.js lines 74-87): apply the `from` clause (decrement,
floored at 0) then the `to` clause (locate-or-create, increment capped at
capacity). -/
def applyOp (config : List Subshell) (op : ExceptionOp) : List Subshell :=
  let afterFrom :=
    match config.findIdx? (fun c => c.n == op.src.n && c.l == op.src.l) with
    | some i =>
      match config[i]? with
      | some target =>
        config.set i { target with electrons := max 0 (target.electrons - op.src.count) }
      | none => config
    | none => config
  match ensureEntry afterFrom op.dst.n op.dst.l with
  | (config2, some i) =>
    match config2[i]? with
    | some dest =>
      config2.set i { dest with electrons := min dest.capacity (dest.electrons + op.dst.count) }
    | none => config2
  | (config2, none) => config2

/-- `applyExceptions` (src/electron_config.js lines 71-93). When the atomic
number has no entry in the table the function returns early, so the pruning
of `electrons <= 0` records only runs on the exception path, exactly as in
the source. -/
def applyExceptions (config : List Subshell) (atomicNumber : Int) : List Subshell :=
  match EXCEPTION_ADJUSTMENTS.find? (fun kv => kv.1 == atomicNumber) with
  | none => config
  | some (_, ops) =>
    (ops.foldl applyOp config).filter (fun c => 0 < c.electrons)

/-- The baseline Aufbau fill loop of `buildElectronConfiguration`
(src/electron_config.js lines 98-103): walk the table, give each slot
`min (capacity, remaining)`, stop when nothing remains. -/
def fillOrbitals : List Orbital → Int → List Subshell
  | [], _ => []
  | orbital :: rest, remaining =>
    if remaining ≤ 0 then []
    else
      let electrons := min orbital.capacity remaining
      ⟨orbital.n, orbital.l, orbital.capacity, electrons⟩ :: fillOrbitals rest (remaining - electrons)

/-- `buildElectronConfiguration` (src/electron_config.js lines 95-106). -/
def buildElectronConfiguration (atomicNumber : Int) : List Subshell :=
  applyExceptions (fillOrbitals ORBITAL_ORDER atomicNumber) atomicNumber

/-- `formatElectronConfiguration` (src/electron_config.js lines 108-110). -/
def formatElectronConfiguration (config : List Subshell) : String :=
  String.intercalate " "
    (config.map (fun entry => toString entry.n ++ entry.l ++ toString entry.electrons))

/-- `computeValenceElectrons` (src/electron_config.js lines 112-120). -/
def computeValenceElectrons (config : List Subshell) : Int :=
  let maxShell := config.foldl (fun m entry => if m < entry.n then entry.n else m) 0
  (config.filter (fun entry => entry.n == maxShell)).foldl
    (fun sum entry => sum + entry.electrons) 0

/-- Total electron count of a configuration (the `sum(electrons across
config)` of the spec's testable properties). -/
def sumElectrons (config : List Subshell) : Int :=
  config.foldl (fun s entry => s + entry.electrons) 0

/-- The filling-order index of a configuration entry's subshell key. -/
def subshellOrderIndex (e : Subshell) : Option Nat :=
  orderIndex e.n e.l

/-- Strict filling-order comparison of two entries: both keys are in the
table and the first one's index is smaller. -/
def idxLt (a b : Subshell) : Prop :=
  match subshellOrderIndex a, subshellOrderIndex b with
  | some ia, some ib => ia < ib
  | _, _ => False

/-- Boolean version of `idxLt`, used so sortedness of concrete
configurations can be checked by evaluation. -/
def idxLtB (a b : Subshell) : Bool :=
  match subshellOrderIndex a, subshellOrderIndex b with
  | some ia, some ib => ia < ib
  | _, _ => false

/-- Boolean check that consecutive entries strictly increase in
filling-order index. -/
def sortedByOrderB : List Subshell → Bool
  | [] => true
  | [_] => true
  | a :: b :: rest => idxLtB a b && sortedByOrderB (b :: rest)

/-- The configuration with all 19 table slots filled to capacity (what the
baseline fill produces once the atomic number is at least the table's total
capacity of 118). -/
def fullConfig : List Subshell :=
  ORBITAL_ORDER.map (fun o => ⟨o.n, o.l, o.capacity, o.capacity⟩)

/-! ## The orbital field model (src/orbitals.js) -/

/-- A three.js `Vector3`, over `ℝ`. -/
structure Vec3 where
  x : ℝ
  y : ℝ
  z : ℝ

/-- `v.length()` of three.js. -/
noncomputable def Vec3.length (v : Vec3) : ℝ :=
  Real.sqrt (v.x * v.x + v.y * v.y + v.z * v.z)

/-- `v.normalize()` of three.js: divide by `length || 1` (a zero-length
vector is divided by 1, i.e. left unchanged). -/
noncomputable def Vec3.normalize (v : Vec3) : Vec3 :=
  let d := if v.length = 0 then 1 else v.length
  ⟨v.x / d, v.y / d, v.z / d⟩

/-- `Math.atan2 (y, x)`, embedded as the principal argument of `x + y i`
(both lie in `(-π, π]` and agree away from JavaScript's signed zeros). -/
noncomputable def atan2 (y x : ℝ) : ℝ :=
  Complex.arg ⟨x, y⟩

/-- `cosT = dir.y / r` with `r = 1.0`
(src/orbitals.js lines 144-145): the polar axis is Y. -/
noncomputable def cosT (dir : Vec3) : ℝ :=
  dir.y / 1

/-- `sinT = Math.sqrt (Math.max (0, 1 - cosT * cosT))`
(src/orbitals.js line 146). -/
noncomputable def sinT (dir : Vec3) : ℝ :=
  Real.sqrt (max 0 (1 - cosT dir * cosT dir))

/-- `phi = Math.atan2 (z, x)` (src/orbitals.js line 147). -/
noncomputable def phi (dir : Vec3) : ℝ :=
  atan2 dir.z dir.x

/-- `evaluateOrbitalAmplitude` (src/orbitals.js lines 140-175). The `switch`
on `family` with nested `if` chains on `variant` is transcribed as the same
chain of string comparisons; each family's final `return` is the chain's
else branch. `Math.pow (sinT, 3.0)` is `sinT ^ 3` (the base is a real square
root, hence nonnegative). -/
noncomputable def evaluateOrbitalAmplitude (family variant : String) (dir : Vec3) : ℝ :=
  if family = "s" then 1
  else if family = "p" then
    (if variant = "px" then sinT dir * Real.cos (phi dir)
     else if variant = "py" then sinT dir * Real.sin (phi dir)
     else cosT dir)
  else if family = "d" then
    (if variant = "dz2" then 0.5 * (3 * cosT dir * cosT dir - 1)
     else if variant = "dxz" then sinT dir * cosT dir * Real.cos (phi dir)
     else if variant = "dyz" then sinT dir * cosT dir * Real.sin (phi dir)
     else if variant = "dxy" then sinT dir * sinT dir * Real.sin (2 * phi dir)
     else sinT dir * sinT dir * Real.cos (2 * phi dir))
  else if family = "f" then
    (if variant = "fz3" then 0.5 * cosT dir * (5 * cosT dir * cosT dir - 3)
     else if variant = "fxz2" then
       0.5 * sinT dir * Real.cos (phi dir) * (5 * cosT dir * cosT dir - 1)
     else if variant = "fyz2" then
       0.5 * sinT dir * Real.sin (phi dir) * (5 * cosT dir * cosT dir - 1)
     else if variant = "fzx2y2" then
       sinT dir * sinT dir * cosT dir * Real.cos (2 * phi dir)
     else if variant = "fxyz" then
       sinT dir * sinT dir * cosT dir * Real.sin (2 * phi dir)
     else if variant = "fcos3" then sinT dir ^ 3 * Real.cos (3 * phi dir)
     else if variant = "fsin3" then sinT dir ^ 3 * Real.sin (3 * phi dir)
     else 0.5 * cosT dir * (5 * cosT dir * cosT dir - 3))
  else 1

/-- A nodal-surface primitive: an oriented plane through the origin (the
normal handed to `createPlaneNode`) or a double cone (the `cosTheta` handed
to `createDoubleConeNode`). -/
inductive NodalSurface where
  | plane (normal : Vec3)
  | cone (cosTheta : ℝ)

/-- `buildNodalGroup` (src/orbitals.js lines 52-138), reduced to the
geometric content of the group it builds: the list of plane normals and cone
cosines added by `addPlanes`/`addCones`, in order. The source returns `null`
when the group has no children, which corresponds to the empty list here. -/
noncomputable def buildNodalGroup (family variant : String) : List NodalSurface :=
  if family = "s" then []
  else if family = "p" then
    (if variant = "px" then [.plane ⟨1, 0, 0⟩]
     else if variant = "py" then [.plane ⟨0, 1, 0⟩]
     else [.plane ⟨0, 0, 1⟩])
  else if family = "d" then
    (if variant = "dz2" then [.cone (1 / Real.sqrt 3)]
     else if variant = "dxz" then [.plane ⟨1, 0, 0⟩, .plane ⟨0, 0, 1⟩]
     else if variant = "dyz" then [.plane ⟨0, 1, 0⟩, .plane ⟨0, 0, 1⟩]
     else if variant = "dxy" then [.plane ⟨1, 0, 0⟩, .plane ⟨0, 1, 0⟩]
     else [.plane (Vec3.normalize ⟨1, 1, 0⟩), .plane (Vec3.normalize ⟨1, -1, 0⟩)])
  else if family = "f" then
    (if variant = "fz3" then [.plane ⟨0, 1, 0⟩, .cone (Real.sqrt (3 / 5))]
     else if variant = "fxz2" then [.plane ⟨1, 0, 0⟩, .cone (1 / Real.sqrt 5)]
     else if variant = "fyz2" then [.plane ⟨0, 1, 0⟩, .cone (1 / Real.sqrt 5)]
     else if variant = "fzx2y2" then
       [.plane ⟨0, 0, 1⟩, .plane (Vec3.normalize ⟨1, 1, 0⟩),
        .plane (Vec3.normalize ⟨1, -1, 0⟩)]
     else if variant = "fxyz" then
       [.plane ⟨1, 0, 0⟩, .plane ⟨0, 1, 0⟩, .plane ⟨0, 0, 1⟩]
     else if variant = "fcos3" then
       [.plane ⟨0, 0, 1⟩,
        .plane ⟨Real.sin (Real.pi / 3), 0, Real.cos (Real.pi / 3)⟩,
        .plane ⟨Real.sin ((2 * Real.pi) / 3), 0, Real.cos ((2 * Real.pi) / 3)⟩]
     else if variant = "fsin3" then
       [.plane ⟨1, 0, 0⟩,
        .plane ⟨Real.sin (Real.pi / 3), 0, Real.cos (Real.pi / 3)⟩,
        .plane ⟨Real.sin ((2 * Real.pi) / 3), 0, Real.cos ((2 * Real.pi) / 3)⟩]
     else [.plane ⟨0, 1, 0⟩])
  else []

/-- The nodal-plane normals listed in a variant's nodal-surface descriptor
(cone surfaces carry no plane normal). -/
noncomputable def planeNormals (family variant : String) : List Vec3 :=
  (buildNodalGroup family variant).filterMap
    (fun s => match s with
      | NodalSurface.plane normal => some normal
      | NodalSurface.cone _ => none)

/-- The closed enumerated set of (family, variant) pairs (spec §3,
`OrbitalVariant`). -/
def enumeratedPairs : List (String × String) :=
  [("s", "s"), ("p", "px"), ("p", "py"), ("p", "pz"),
   ("d", "dz2"), ("d", "dxz"), ("d", "dyz"), ("d", "dxy"), ("d", "dx2y2"),
   ("f", "fz3"), ("f", "fxz2"), ("f", "fyz2"), ("f", "fzx2y2"),
   ("f", "fxyz"), ("f", "fcos3"), ("f", "fsin3")]

/-- The pairs of `enumeratedPairs` whose amplitude really does vanish at
every nodal-plane normal listed in their own descriptor (for `s` and `dz2`
the descriptor lists no plane). -/
def vanishingPairs : List (String × String) :=
  [("s", "s"), ("p", "py"), ("p", "pz"),
   ("d", "dz2"), ("d", "dxz"), ("d", "dyz"), ("d", "dxy"),
   ("f", "fyz2"), ("f", "fxyz"), ("f", "fcos3")]

/-! ## Helper lemmas about the configuration builder -/

/-- The baseline fill of a nonpositive electron count is empty. -/
lemma fillOrbitals_nonpos (orbs : List Orbital) (r : Int) (h : r ≤ 0) :
    fillOrbitals orbs r = [] := by
  cases orbs with
  | nil => rfl
  | cons o rest => simp [fillOrbitals, h]

/-- Atomic numbers outside the key range of the exception table (all keys
lie in 24..103) have no exception entry. -/
lemma exception_lookup_none (z : Int) (h : z < 24 ∨ 103 < z) :
    EXCEPTION_ADJUSTMENTS.find? (fun kv => kv.1 == z) = none := by
  rw [List.find?_eq_none]
  intro x hx
  simp only [EXCEPTION_ADJUSTMENTS, List.mem_cons, List.not_mem_nil, or_false] at hx
  rcases hx with rfl | rfl | rfl | rfl | rfl | rfl | rfl | rfl | rfl | rfl |
    rfl | rfl | rfl | rfl | rfl | rfl | rfl | rfl | rfl | rfl <;>
    simp only [beq_iff_eq] <;> omega

/-- When the remaining electron count at least exhausts the table, every
slot is filled to capacity. -/
lemma fillOrbitals_saturates (orbs : List Orbital) :
    ∀ r : Int, (∀ o ∈ orbs, 0 < o.capacity) →
      (orbs.map (fun o => o.capacity)).sum ≤ r →
      fillOrbitals orbs r = orbs.map (fun o => ⟨o.n, o.l, o.capacity, o.capacity⟩) := by
  induction orbs with
  | nil => intro r _ _; rfl
  | cons o rest ih =>
    intro r hpos hsum
    simp only [List.map_cons, List.sum_cons] at hsum
    have hco : 0 < o.capacity := hpos o (List.mem_cons_self o rest)
    have hrest : 0 ≤ (rest.map (fun o => o.capacity)).sum := by
      apply List.sum_nonneg
      intro x hx
      obtain ⟨o', ho', rfl⟩ := List.mem_map.mp hx
      exact (hpos o' (List.mem_cons_of_mem _ ho')).le
    have hr : ¬ r ≤ 0 := by omega
    have hmin : min o.capacity r = o.capacity := min_eq_left (by omega)
    simp only [fillOrbitals, if_neg hr, hmin, List.map_cons, List.cons.injEq, true_and]
    exact ih (r - o.capacity) (fun o' h => hpos o' (List.mem_cons_of_mem _ h)) (by omega)

/-- For atomic numbers of at least 118 the builder returns the full table:
the baseline fill saturates every slot and no exception entry applies. -/
lemma build_saturated (z : Int) (h : 118 ≤ z) :
    buildElectronConfiguration z = fullConfig := by
  unfold buildElectronConfiguration
  rw [fillOrbitals_saturates ORBITAL_ORDER z (by decide)
      (by have hs : (ORBITAL_ORDER.map (fun o => o.capacity)).sum = 118 := by decide
          omega)]
  unfold applyExceptions
  rw [exception_lookup_none z (Or.inr (by omega))]
  rfl

/-- `idxLtB` implies `idxLt`. -/
lemma idxLt_of_idxLtB (a b : Subshell) (h : idxLtB a b = true) : idxLt a b := by
  unfold idxLtB at h
  unfold idxLt
  cases ha : subshellOrderIndex a <;> cases hb : subshellOrderIndex b <;>
    rw [ha, hb] at h <;> simp_all

/-- The boolean sortedness checker implies chained strict filling-order
increase. -/
lemma chain'_of_sortedB : ∀ l : List Subshell, sortedByOrderB l = true → List.Chain' idxLt l
  | [], _ => List.chain'_nil
  | [_], _ => List.chain'_singleton _
  | a :: b :: rest, h => by
    have h' : idxLtB a b = true ∧ sortedByOrderB (b :: rest) = true := by
      simpa [sortedByOrderB, Bool.and_eq_true] using h
    exact List.chain'_cons.mpr ⟨idxLt_of_idxLtB a b h'.1, chain'_of_sortedB (b :: rest) h'.2⟩

/-! ## Claim theorems for the configuration builder -/

set_option maxRecDepth 10000 in
/-- C1: for every atomic number in 1..118, the electron counts of the built
configuration sum to the atomic number, both with and without an exception
rule (the floor at 0 and the cap at capacity never change the total). -/
theorem electron_total_preserved (z : Int) (h1 : 1 ≤ z) (h2 : z ≤ 118) :
    sumElectrons (buildElectronConfiguration z) = z := by
  have key : ∀ n : Nat, n < 118 →
      sumElectrons (buildElectronConfiguration ((n : Int) + 1)) = (n : Int) + 1 := by decide
  have hz : ((z - 1).toNat : Int) + 1 = z := by omega
  have h := key (z - 1).toNat (by omega)
  rwa [hz] at h

/-- Witness for C1: chromium (24, an exception element) totals 24. -/
theorem electron_total_preserved_witness :
    sumElectrons (buildElectronConfiguration 24) = 24 :=
  electron_total_preserved 24 (by norm_num) (by norm_num)

/-- C4: chromium's configuration has the 4s record at 1 electron and the 3d
record at 5 electrons. -/
theorem chromium_exception :
    ((buildElectronConfiguration 24).find? (fun e => e.n == 4 && e.l == "s")
      = some ⟨4, "s", 2, 1⟩) ∧
    ((buildElectronConfiguration 24).find? (fun e => e.n == 3 && e.l == "d")
      = some ⟨3, "d", 10, 5⟩) := by
  decide

/-- C5: calcium's configuration is exactly the six records 1s2 2s2 2p6 3s2
3p6 4s2 in order, formats to the expected string, and has 2 valence
electrons. -/
theorem calcium_configuration :
    buildElectronConfiguration 20 =
      [⟨1, "s", 2, 2⟩, ⟨2, "s", 2, 2⟩, ⟨2, "p", 6, 6⟩,
       ⟨3, "s", 2, 2⟩, ⟨3, "p", 6, 6⟩, ⟨4, "s", 2, 2⟩] ∧
    formatElectronConfiguration (buildElectronConfiguration 20)
      = "1s2 2s2 2p6 3s2 3p6 4s2" ∧
    computeValenceElectrons (buildElectronConfiguration 20) = 2 := by
  decide

set_option maxRecDepth 10000 in
/-- C6: for every positive atomic number, every record of the built
configuration has 0 < electrons ≤ capacity. -/
theorem occupancy_in_range (z : Int) (hz : 0 < z) :
    ∀ e ∈ buildElectronConfiguration z, 0 < e.electrons ∧ e.electrons ≤ e.capacity := by
  by_cases h : z ≤ 117
  · have key : ∀ n : Nat, n < 117 →
        ∀ e ∈ buildElectronConfiguration ((n : Int) + 1),
          0 < e.electrons ∧ e.electrons ≤ e.capacity := by decide
    have hz' : ((z - 1).toNat : Int) + 1 = z := by omega
    have h' := key (z - 1).toNat (by omega)
    rwa [hz'] at h'
  · rw [build_saturated z (by omega)]
    decide

/-- Witness for C6: in palladium (46, the strongest exception: 4d raised by
2 to its full capacity) the 4d record's occupancy is within range. -/
theorem occupancy_in_range_witness :
    0 < (Subshell.mk 4 "d" 10 10).electrons ∧
      (Subshell.mk 4 "d" 10 10).electrons ≤ (Subshell.mk 4 "d" 10 10).capacity :=
  occupancy_in_range 46 (by norm_num) ⟨4, "d", 10, 10⟩ (by decide)

set_option maxRecDepth 10000 in
/-- C7: for every positive atomic number the returned sequence is strictly
increasing in the filling-order table's index, also when an exception rule
inserts a previously absent destination record. -/
theorem config_sorted_by_filling_order (z : Int) (hz : 0 < z) :
    List.Chain' idxLt (buildElectronConfiguration z) := by
  apply chain'_of_sortedB
  by_cases h : z ≤ 117
  · have key : ∀ n : Nat, n < 117 →
        sortedByOrderB (buildElectronConfiguration ((n : Int) + 1)) = true := by decide
    have hz' : ((z - 1).toNat : Int) + 1 = z := by omega
    have h' := key (z - 1).toNat (by omega)
    rwa [hz'] at h'
  · rw [build_saturated z (by omega)]
    decide

/-- Witness for C7: lanthanum (57), whose exception creates the previously
absent 5d record, is sorted in filling order. -/
theorem config_sorted_by_filling_order_witness :
    List.Chain' idxLt (buildElectronConfiguration 57) := by
  apply config_sorted_by_filling_order
  norm_num

/-- C8: every nonpositive atomic number yields the empty configuration. -/
theorem build_nonpositive_empty (z : Int) (hz : z ≤ 0) :
    buildElectronConfiguration z = [] := by
  unfold buildElectronConfiguration
  rw [fillOrbitals_nonpos _ _ hz]
  unfold applyExceptions
  rw [exception_lookup_none z (Or.inl (by omega))]

/-- Witness for C8: atomic number 0 yields the empty configuration. -/
theorem build_nonpositive_empty_witness :
    buildElectronConfiguration 0 = [] :=
  build_nonpositive_empty 0 (by norm_num)

/-- C10: every atomic number of at least 118 with no exception entry yields
all 19 table slots filled to capacity, totalling exactly 118 electrons. -/
theorem table_exhausted_full (z : Int) (h118 : 118 ≤ z)
    (_hnoexc : EXCEPTION_ADJUSTMENTS.find? (fun kv => kv.1 == z) = none) :
    buildElectronConfiguration z = fullConfig ∧
    fullConfig.length = 19 ∧
    sumElectrons (buildElectronConfiguration z) = 118 := by
  have hb := build_saturated z h118
  refine ⟨hb, by decide, ?_⟩
  rw [hb]
  decide

/-- Witness for C10: atomic number 200 produces the saturated 19-slot
configuration with 118 electrons. -/
theorem table_exhausted_full_witness :
    buildElectronConfiguration 200 = fullConfig ∧
    fullConfig.length = 19 ∧
    sumElectrons (buildElectronConfiguration 200) = 118 :=
  table_exhausted_full 200 (by norm_num) (by decide)

/-! ## Helper lemmas for the orbital field model -/

lemma cosT_eq (d : Vec3) : cosT d = d.y := div_one d.y

lemma sinT_of_y_zero (d : Vec3) (h : d.y = 0) : sinT d = 1 := by
  simp [sinT, cosT_eq, h]

lemma sinT_of_y_one (d : Vec3) (h : d.y = 1) : sinT d = 0 := by
  simp [sinT, cosT_eq, h]

lemma cos_phi_eq (d : Vec3) (h : ¬(d.x = 0 ∧ d.z = 0)) :
    Real.cos (phi d) = d.x / Real.sqrt (d.x * d.x + d.z * d.z) := by
  have hz : (⟨d.x, d.z⟩ : ℂ) ≠ 0 := by
    intro hc
    rw [Complex.ext_iff] at hc
    simp only [Complex.zero_re, Complex.zero_im] at hc
    exact h hc
  unfold phi atan2
  rw [Complex.cos_arg hz, Complex.abs_apply, Complex.normSq_mk]

lemma sin_phi_eq (d : Vec3) :
    Real.sin (phi d) = d.z / Real.sqrt (d.x * d.x + d.z * d.z) := by
  unfold phi atan2
  rw [Complex.sin_arg, Complex.abs_apply, Complex.normSq_mk]

lemma amp_s (v : String) (d : Vec3) : evaluateOrbitalAmplitude "s" v d = 1 := by
  simp [evaluateOrbitalAmplitude]

lemma amp_px (d : Vec3) :
    evaluateOrbitalAmplitude "p" "px" d = sinT d * Real.cos (phi d) := by
  simp [evaluateOrbitalAmplitude]

lemma amp_py (d : Vec3) :
    evaluateOrbitalAmplitude "p" "py" d = sinT d * Real.sin (phi d) := by
  simp [evaluateOrbitalAmplitude]

lemma amp_pz (d : Vec3) : evaluateOrbitalAmplitude "p" "pz" d = cosT d := by
  simp [evaluateOrbitalAmplitude]

lemma amp_dz2 (d : Vec3) :
    evaluateOrbitalAmplitude "d" "dz2" d = 0.5 * (3 * cosT d * cosT d - 1) := by
  simp [evaluateOrbitalAmplitude]

lemma amp_dxz (d : Vec3) :
    evaluateOrbitalAmplitude "d" "dxz" d = sinT d * cosT d * Real.cos (phi d) := by
  simp [evaluateOrbitalAmplitude]

lemma amp_dyz (d : Vec3) :
    evaluateOrbitalAmplitude "d" "dyz" d = sinT d * cosT d * Real.sin (phi d) := by
  simp [evaluateOrbitalAmplitude]

lemma amp_dxy (d : Vec3) :
    evaluateOrbitalAmplitude "d" "dxy" d = sinT d * sinT d * Real.sin (2 * phi d) := by
  simp [evaluateOrbitalAmplitude]

lemma amp_dx2y2 (d : Vec3) :
    evaluateOrbitalAmplitude "d" "dx2y2" d = sinT d * sinT d * Real.cos (2 * phi d) := by
  simp [evaluateOrbitalAmplitude]

lemma amp_fz3 (d : Vec3) :
    evaluateOrbitalAmplitude "f" "fz3" d = 0.5 * cosT d * (5 * cosT d * cosT d - 3) := by
  simp [evaluateOrbitalAmplitude]

lemma amp_fxz2 (d : Vec3) :
    evaluateOrbitalAmplitude "f" "fxz2" d
      = 0.5 * sinT d * Real.cos (phi d) * (5 * cosT d * cosT d - 1) := by
  simp [evaluateOrbitalAmplitude]

lemma amp_fyz2 (d : Vec3) :
    evaluateOrbitalAmplitude "f" "fyz2" d
      = 0.5 * sinT d * Real.sin (phi d) * (5 * cosT d * cosT d - 1) := by
  simp [evaluateOrbitalAmplitude]

lemma amp_fzx2y2 (d : Vec3) :
    evaluateOrbitalAmplitude "f" "fzx2y2" d
      = sinT d * sinT d * cosT d * Real.cos (2 * phi d) := by
  simp [evaluateOrbitalAmplitude]

lemma amp_fxyz (d : Vec3) :
    evaluateOrbitalAmplitude "f" "fxyz" d
      = sinT d * sinT d * cosT d * Real.sin (2 * phi d) := by
  simp [evaluateOrbitalAmplitude]

lemma amp_fcos3 (d : Vec3) :
    evaluateOrbitalAmplitude "f" "fcos3" d = sinT d ^ 3 * Real.cos (3 * phi d) := by
  simp [evaluateOrbitalAmplitude]

lemma amp_fsin3 (d : Vec3) :
    evaluateOrbitalAmplitude "f" "fsin3" d = sinT d ^ 3 * Real.sin (3 * phi d) := by
  simp [evaluateOrbitalAmplitude]

lemma cosT_of_mk_y_zero (x z : ℝ) : cosT ⟨x, 0, z⟩ = 0 := by
  rw [cosT_eq]

lemma ampzero_py : evaluateOrbitalAmplitude "p" "py" ⟨0, 1, 0⟩ = 0 := by
  rw [amp_py, sinT_of_y_one _ rfl, zero_mul]

lemma ampzero_pz : evaluateOrbitalAmplitude "p" "pz" ⟨0, 0, 1⟩ = 0 := by
  rw [amp_pz, cosT_of_mk_y_zero]

lemma ampzero_dxz_e1 : evaluateOrbitalAmplitude "d" "dxz" ⟨1, 0, 0⟩ = 0 := by
  rw [amp_dxz, cosT_of_mk_y_zero, mul_zero, zero_mul]

lemma ampzero_dxz_e3 : evaluateOrbitalAmplitude "d" "dxz" ⟨0, 0, 1⟩ = 0 := by
  rw [amp_dxz, cosT_of_mk_y_zero, mul_zero, zero_mul]

lemma ampzero_dyz_e2 : evaluateOrbitalAmplitude "d" "dyz" ⟨0, 1, 0⟩ = 0 := by
  rw [amp_dyz, sinT_of_y_one _ rfl, zero_mul, zero_mul]

lemma ampzero_dyz_e3 : evaluateOrbitalAmplitude "d" "dyz" ⟨0, 0, 1⟩ = 0 := by
  rw [amp_dyz, cosT_of_mk_y_zero, mul_zero, zero_mul]

lemma ampzero_dxy_e1 : evaluateOrbitalAmplitude "d" "dxy" ⟨1, 0, 0⟩ = 0 := by
  rw [amp_dxy, Real.sin_two_mul, sin_phi_eq]
  norm_num

lemma ampzero_dxy_e2 : evaluateOrbitalAmplitude "d" "dxy" ⟨0, 1, 0⟩ = 0 := by
  rw [amp_dxy, sinT_of_y_one _ rfl, zero_mul, zero_mul]

lemma ampzero_fyz2_e2 : evaluateOrbitalAmplitude "f" "fyz2" ⟨0, 1, 0⟩ = 0 := by
  rw [amp_fyz2, sinT_of_y_one _ rfl]
  ring

lemma ampzero_fxyz_e1 : evaluateOrbitalAmplitude "f" "fxyz" ⟨1, 0, 0⟩ = 0 := by
  rw [amp_fxyz, cosT_of_mk_y_zero]
  ring

lemma ampzero_fxyz_e2 : evaluateOrbitalAmplitude "f" "fxyz" ⟨0, 1, 0⟩ = 0 := by
  rw [amp_fxyz, sinT_of_y_one _ rfl]
  ring

lemma ampzero_fxyz_e3 : evaluateOrbitalAmplitude "f" "fxyz" ⟨0, 0, 1⟩ = 0 := by
  rw [amp_fxyz, cosT_of_mk_y_zero]
  ring

lemma ampzero_fcos3_e3 : evaluateOrbitalAmplitude "f" "fcos3" ⟨0, 0, 1⟩ = 0 := by
  have hcos3 : Real.cos (3 * phi ⟨0, 0, 1⟩) = 0 := by
    rw [Real.cos_three_mul, cos_phi_eq _ (by norm_num)]
    norm_num
  rw [amp_fcos3, hcos3, mul_zero]

lemma sqrt3_ne_zero : Real.sqrt 3 ≠ 0 := by
  have := Real.sqrt_pos.mpr (by norm_num : (0:ℝ) < 3)
  linarith

lemma ampzero_fcos3_v60 :
    evaluateOrbitalAmplitude "f" "fcos3"
      ⟨Real.sin (Real.pi / 3), 0, Real.cos (Real.pi / 3)⟩ = 0 := by
  have h3 : Real.sqrt 3 * Real.sqrt 3 = 3 := Real.mul_self_sqrt (by norm_num)
  have hcos3 : Real.cos (3 * phi ⟨Real.sin (Real.pi / 3), 0, Real.cos (Real.pi / 3)⟩) = 0 := by
    rw [Real.cos_three_mul, cos_phi_eq]
    · show (4 * (Real.sin (Real.pi / 3) / Real.sqrt _) ^ 3
          - 3 * (Real.sin (Real.pi / 3) / Real.sqrt _)) = 0
      rw [Real.sin_pi_div_three, Real.cos_pi_div_three]
      have hden : Real.sqrt (Real.sqrt 3 / 2 * (Real.sqrt 3 / 2) + 1 / 2 * (1 / 2)) = 1 := by
        rw [show (Real.sqrt 3 / 2 * (Real.sqrt 3 / 2) + 1 / 2 * (1 / 2) : ℝ) = 1 by
          linear_combination (1/4) * h3]
        exact Real.sqrt_one
      rw [hden]
      have h9 : Real.sqrt 3 ^ 3 = 3 * Real.sqrt 3 := by
        rw [pow_succ, Real.sq_sqrt (by norm_num : (0:ℝ) ≤ 3)]
      linear_combination (1/2) * h9
    · intro hc
      rw [Real.sin_pi_div_three] at hc
      have := Real.sqrt_pos.mpr (by norm_num : (0:ℝ) < 3)
      obtain ⟨h1, _⟩ := hc
      simp only at h1
      linarith
  rw [amp_fcos3, hcos3, mul_zero]

lemma ampzero_fcos3_v120 :
    evaluateOrbitalAmplitude "f" "fcos3"
      ⟨Real.sin ((2 * Real.pi) / 3), 0, Real.cos ((2 * Real.pi) / 3)⟩ = 0 := by
  have h3 : Real.sqrt 3 * Real.sqrt 3 = 3 := Real.mul_self_sqrt (by norm_num)
  have hang : (2 * Real.pi) / 3 = Real.pi - Real.pi / 3 := by ring
  have hcos3 : Real.cos (3 * phi
      ⟨Real.sin ((2 * Real.pi) / 3), 0, Real.cos ((2 * Real.pi) / 3)⟩) = 0 := by
    rw [Real.cos_three_mul, cos_phi_eq]
    · show (4 * (Real.sin ((2 * Real.pi) / 3) / Real.sqrt _) ^ 3
          - 3 * (Real.sin ((2 * Real.pi) / 3) / Real.sqrt _)) = 0
      rw [hang, Real.sin_pi_sub, Real.cos_pi_sub, Real.sin_pi_div_three,
        Real.cos_pi_div_three]
      have hden : Real.sqrt (Real.sqrt 3 / 2 * (Real.sqrt 3 / 2) + -(1 / 2) * -(1 / 2)) = 1 := by
        rw [show (Real.sqrt 3 / 2 * (Real.sqrt 3 / 2) + -(1 / 2) * -(1 / 2) : ℝ) = 1 by
          linear_combination (1/4) * h3]
        exact Real.sqrt_one
      rw [hden]
      have h9 : Real.sqrt 3 ^ 3 = 3 * Real.sqrt 3 := by
        rw [pow_succ, Real.sq_sqrt (by norm_num : (0:ℝ) ≤ 3)]
      linear_combination (1/2) * h9
    · intro hc
      obtain ⟨h1, _⟩ := hc
      simp only at h1
      rw [hang, Real.sin_pi_sub, Real.sin_pi_div_three] at h1
      have := Real.sqrt_pos.mpr (by norm_num : (0:ℝ) < 3)
      linarith
  rw [amp_fcos3, hcos3, mul_zero]

lemma amp_px_e1 : evaluateOrbitalAmplitude "p" "px" ⟨1, 0, 0⟩ = 1 := by
  rw [amp_px, sinT_of_y_zero _ rfl, cos_phi_eq _ (by norm_num)]
  norm_num


lemma planeNormals_ss : planeNormals "s" "s" = [] := by rfl

lemma planeNormals_px : planeNormals "p" "px" = [⟨1, 0, 0⟩] := by rfl

lemma planeNormals_py : planeNormals "p" "py" = [⟨0, 1, 0⟩] := by rfl

lemma planeNormals_pz : planeNormals "p" "pz" = [⟨0, 0, 1⟩] := by rfl

lemma planeNormals_dz2 : planeNormals "d" "dz2" = [] := by rfl

lemma planeNormals_dxz : planeNormals "d" "dxz" = [⟨1, 0, 0⟩, ⟨0, 0, 1⟩] := by rfl

lemma planeNormals_dyz : planeNormals "d" "dyz" = [⟨0, 1, 0⟩, ⟨0, 0, 1⟩] := by rfl

lemma planeNormals_dxy : planeNormals "d" "dxy" = [⟨1, 0, 0⟩, ⟨0, 1, 0⟩] := by rfl

lemma planeNormals_fyz2 : planeNormals "f" "fyz2" = [⟨0, 1, 0⟩] := by rfl

lemma planeNormals_fxyz : planeNormals "f" "fxyz" = [⟨1, 0, 0⟩, ⟨0, 1, 0⟩, ⟨0, 0, 1⟩] := by rfl

lemma planeNormals_fcos3 :
    planeNormals "f" "fcos3" =
      [⟨0, 0, 1⟩, ⟨Real.sin (Real.pi / 3), 0, Real.cos (Real.pi / 3)⟩,
       ⟨Real.sin ((2 * Real.pi) / 3), 0, Real.cos ((2 * Real.pi) / 3)⟩] := by
  rfl

/-- C2 (amended): for the pairs s, py, pz, dz2, dxz, dyz, dxy, fyz2, fxyz
and fcos3 the amplitude does evaluate to 0 at every nodal-plane normal
listed in the pair's own descriptor; for px, dx2y2, fz3, fxz2, fzx2y2 and
fsin3 it does not (see the counterexample). -/
theorem nodal_normal_amended (p : String × String) (hp : p ∈ vanishingPairs) :
    ∀ n ∈ planeNormals p.1 p.2, evaluateOrbitalAmplitude p.1 p.2 n = 0 := by
  fin_cases hp <;> intro n hn
  · rw [planeNormals_ss] at hn
    exact absurd hn (List.not_mem_nil n)
  · rw [planeNormals_py] at hn
    simp only [List.mem_cons, List.not_mem_nil, or_false] at hn
    subst hn
    exact ampzero_py
  · rw [planeNormals_pz] at hn
    simp only [List.mem_cons, List.not_mem_nil, or_false] at hn
    subst hn
    exact ampzero_pz
  · rw [planeNormals_dz2] at hn
    exact absurd hn (List.not_mem_nil n)
  · rw [planeNormals_dxz] at hn
    simp only [List.mem_cons, List.not_mem_nil, or_false] at hn
    rcases hn with rfl | rfl
    · exact ampzero_dxz_e1
    · exact ampzero_dxz_e3
  · rw [planeNormals_dyz] at hn
    simp only [List.mem_cons, List.not_mem_nil, or_false] at hn
    rcases hn with rfl | rfl
    · exact ampzero_dyz_e2
    · exact ampzero_dyz_e3
  · rw [planeNormals_dxy] at hn
    simp only [List.mem_cons, List.not_mem_nil, or_false] at hn
    rcases hn with rfl | rfl
    · exact ampzero_dxy_e1
    · exact ampzero_dxy_e2
  · rw [planeNormals_fyz2] at hn
    simp only [List.mem_cons, List.not_mem_nil, or_false] at hn
    subst hn
    exact ampzero_fyz2_e2
  · rw [planeNormals_fxyz] at hn
    simp only [List.mem_cons, List.not_mem_nil, or_false] at hn
    rcases hn with rfl | rfl | rfl
    · exact ampzero_fxyz_e1
    · exact ampzero_fxyz_e2
    · exact ampzero_fxyz_e3
  · rw [planeNormals_fcos3] at hn
    simp only [List.mem_cons, List.not_mem_nil, or_false] at hn
    rcases hn with rfl | rfl | rfl
    · exact ampzero_fcos3_e3
    · exact ampzero_fcos3_v60
    · exact ampzero_fcos3_v120

/-- Witness for the amended C2: the pz amplitude vanishes at the descriptor
normal (0,0,1). -/
theorem nodal_normal_amended_witness :
    evaluateOrbitalAmplitude "p" "pz" ⟨0, 0, 1⟩ = 0 :=
  nodal_normal_amended ("p", "pz") (by decide) ⟨0, 0, 1⟩
    (by rw [planeNormals_pz]; exact List.mem_singleton.mpr rfl)

/-- C2 (counterexample): px lists the nodal-plane normal (1,0,0), but the
px amplitude evaluated at that unit direction is 1, not 0 (an amplitude is
maximal, not zero, along a true nodal plane's normal; the pairs that do
vanish do so only because the source's polar axis is Y while the variant
names follow the conventional Z axis). -/
theorem nodal_normal_counterexample :
    ("p", "px") ∈ enumeratedPairs ∧
    Vec3.mk 1 0 0 ∈ planeNormals "p" "px" ∧
    evaluateOrbitalAmplitude "p" "px" ⟨1, 0, 0⟩ = 1 ∧
    evaluateOrbitalAmplitude "p" "px" ⟨1, 0, 0⟩ ≠ 0 := by
  refine ⟨by decide, ?_, amp_px_e1, ?_⟩
  · rw [planeNormals_px]
    exact List.mem_singleton.mpr rfl
  · rw [amp_px_e1]
    norm_num

/-- C3 (counterexample): the pair (p, qq) lies outside the enumerated set,
yet its amplitude at (1,0,0) is 0 (the pz formula, not the s-family
constant 1) and its nodal-surface construction returns the pz plane, not
nothing: an unrecognized variant inside a known family falls back to the
family's default branch, not to the s family. -/
theorem fallback_counterexample :
    ("p", "qq") ∉ enumeratedPairs ∧
    evaluateOrbitalAmplitude "p" "qq" ⟨1, 0, 0⟩ = 0 ∧
    evaluateOrbitalAmplitude "p" "qq" ⟨1, 0, 0⟩ ≠ 1 ∧
    buildNodalGroup "p" "qq" = [NodalSurface.plane ⟨0, 0, 1⟩] := by
  have hamp : evaluateOrbitalAmplitude "p" "qq" ⟨1, 0, 0⟩ = 0 := by
    have h : evaluateOrbitalAmplitude "p" "qq" ⟨1, 0, 0⟩ = cosT ⟨1, 0, 0⟩ := by
      simp [evaluateOrbitalAmplitude]
    rw [h, cosT_of_mk_y_zero]
  refine ⟨by decide, hamp, ?_, by rfl⟩
  rw [hamp]
  norm_num

/-- C3 (amended): only a pair whose family is none of s, p, d, f degrades
to the s-family formula (amplitude constantly 1) and an empty nodal group;
an unrecognized variant within family p, d or f instead falls back to that
family's default branch: the pz formula and pz plane for p, the dx2y2
formula and planes for d, and the fz3 formula with a single (0,1,0) plane
(but not the fz3 cone) for f. No error is raised in any case. -/
theorem fallback_amended :
    (∀ (family variant : String) (d : Vec3),
        family ≠ "s" → family ≠ "p" → family ≠ "d" → family ≠ "f" →
        evaluateOrbitalAmplitude family variant d = 1 ∧
        buildNodalGroup family variant = []) ∧
    (∀ (variant : String) (d : Vec3), variant ≠ "px" → variant ≠ "py" →
        evaluateOrbitalAmplitude "p" variant d = cosT d ∧
        buildNodalGroup "p" variant = [NodalSurface.plane ⟨0, 0, 1⟩]) ∧
    (∀ (variant : String) (d : Vec3),
        variant ≠ "dz2" → variant ≠ "dxz" → variant ≠ "dyz" → variant ≠ "dxy" →
        evaluateOrbitalAmplitude "d" variant d
          = evaluateOrbitalAmplitude "d" "dx2y2" d ∧
        buildNodalGroup "d" variant = buildNodalGroup "d" "dx2y2") ∧
    (∀ (variant : String) (d : Vec3),
        variant ≠ "fz3" → variant ≠ "fxz2" → variant ≠ "fyz2" → variant ≠ "fzx2y2" →
        variant ≠ "fxyz" → variant ≠ "fcos3" → variant ≠ "fsin3" →
        evaluateOrbitalAmplitude "f" variant d
          = evaluateOrbitalAmplitude "f" "fz3" d ∧
        buildNodalGroup "f" variant = [NodalSurface.plane ⟨0, 1, 0⟩]) := by
  refine ⟨?_, ?_, ?_, ?_⟩
  · intro family variant d h1 h2 h3 h4
    constructor
    · simp [evaluateOrbitalAmplitude, h1, h2, h3, h4]
    · simp [buildNodalGroup, h1, h2, h3, h4]
  · intro variant d h1 h2
    constructor
    · simp [evaluateOrbitalAmplitude, h1, h2]
    · simp [buildNodalGroup, h1, h2]
  · intro variant d h1 h2 h3 h4
    constructor
    · simp [evaluateOrbitalAmplitude, h1, h2, h3, h4]
    · simp [buildNodalGroup, h1, h2, h3, h4]
  · intro variant d h1 h2 h3 h4 h5 h6 h7
    constructor
    · simp [evaluateOrbitalAmplitude, h1, h2, h3, h4, h5, h6, h7]
    · simp [buildNodalGroup, h1, h2, h3, h4, h5, h6, h7]

/-- Witness for the amended C3: the unknown family g degrades to amplitude
1 and no nodal surfaces. -/
theorem fallback_amended_witness :
    evaluateOrbitalAmplitude "g" "gg" ⟨0, 1, 0⟩ = 1 ∧
    buildNodalGroup "g" "gg" = [] :=
  fallback_amended.1 "g" "gg" ⟨0, 1, 0⟩ (by decide) (by decide) (by decide) (by decide)

lemma abs_mul_le_one {a b : ℝ} (ha : |a| ≤ 1) (hb : |b| ≤ 1) : |a * b| ≤ 1 := by
  rw [abs_mul]
  exact mul_le_one₀ ha (abs_nonneg b) hb

/-- C9: for every pair of the enumerated set and every unit direction the
angular amplitude lies in the closed interval [-1, 1]. -/
theorem amplitude_bounded (p : String × String) (hp : p ∈ enumeratedPairs)
    (d : Vec3) (hd : d.x ^ 2 + d.y ^ 2 + d.z ^ 2 = 1) :
    -1 ≤ evaluateOrbitalAmplitude p.1 p.2 d ∧ evaluateOrbitalAmplitude p.1 p.2 d ≤ 1 := by
  have hy2 : d.y ^ 2 ≤ 1 := by nlinarith [sq_nonneg d.x, sq_nonneg d.z]
  have hcc : 0 ≤ 1 - cosT d * cosT d := by rw [cosT_eq]; nlinarith
  have hc_abs : |cosT d| ≤ 1 := by
    rw [cosT_eq, abs_le]
    constructor <;> nlinarith
  have hc_le : cosT d ≤ 1 := (abs_le.mp hc_abs).2
  have hc_ge : -1 ≤ cosT d := (abs_le.mp hc_abs).1
  have hs_nonneg : 0 ≤ sinT d := Real.sqrt_nonneg _
  have hs_sq : sinT d ^ 2 = 1 - cosT d * cosT d := by
    rw [sinT, max_eq_right hcc, Real.sq_sqrt hcc]
  have hs_le : sinT d ≤ 1 := by
    nlinarith [sq_nonneg (sinT d - 1), mul_self_nonneg (cosT d)]
  have hs_abs : |sinT d| ≤ 1 := abs_le.mpr ⟨by linarith, hs_le⟩
  have habs_cos1 := Real.abs_cos_le_one (phi d)
  have habs_sin1 := Real.abs_sin_le_one (phi d)
  have habs_cos2 := Real.abs_cos_le_one (2 * phi d)
  have habs_sin2 := Real.abs_sin_le_one (2 * phi d)
  have habs_cos3 := Real.abs_cos_le_one (3 * phi d)
  have habs_sin3 := Real.abs_sin_le_one (3 * phi d)
  fin_cases hp
  · rw [show evaluateOrbitalAmplitude ("s", "s").1 ("s", "s").2 d
        = evaluateOrbitalAmplitude "s" "s" d from rfl, amp_s]
    norm_num
  · rw [show evaluateOrbitalAmplitude ("p", "px").1 ("p", "px").2 d
        = evaluateOrbitalAmplitude "p" "px" d from rfl, amp_px]
    exact abs_le.mp (abs_mul_le_one hs_abs habs_cos1)
  · rw [show evaluateOrbitalAmplitude ("p", "py").1 ("p", "py").2 d
        = evaluateOrbitalAmplitude "p" "py" d from rfl, amp_py]
    exact abs_le.mp (abs_mul_le_one hs_abs habs_sin1)
  · rw [show evaluateOrbitalAmplitude ("p", "pz").1 ("p", "pz").2 d
        = evaluateOrbitalAmplitude "p" "pz" d from rfl, amp_pz]
    exact abs_le.mp hc_abs
  · rw [show evaluateOrbitalAmplitude ("d", "dz2").1 ("d", "dz2").2 d
        = evaluateOrbitalAmplitude "d" "dz2" d from rfl, amp_dz2]
    constructor
    · linarith [mul_self_nonneg (cosT d)]
    · linarith [hcc]
  · rw [show evaluateOrbitalAmplitude ("d", "dxz").1 ("d", "dxz").2 d
        = evaluateOrbitalAmplitude "d" "dxz" d from rfl, amp_dxz]
    exact abs_le.mp (abs_mul_le_one (abs_mul_le_one hs_abs hc_abs) habs_cos1)
  · rw [show evaluateOrbitalAmplitude ("d", "dyz").1 ("d", "dyz").2 d
        = evaluateOrbitalAmplitude "d" "dyz" d from rfl, amp_dyz]
    exact abs_le.mp (abs_mul_le_one (abs_mul_le_one hs_abs hc_abs) habs_sin1)
  · rw [show evaluateOrbitalAmplitude ("d", "dxy").1 ("d", "dxy").2 d
        = evaluateOrbitalAmplitude "d" "dxy" d from rfl, amp_dxy]
    exact abs_le.mp (abs_mul_le_one (abs_mul_le_one hs_abs hs_abs) habs_sin2)
  · rw [show evaluateOrbitalAmplitude ("d", "dx2y2").1 ("d", "dx2y2").2 d
        = evaluateOrbitalAmplitude "d" "dx2y2" d from rfl, amp_dx2y2]
    exact abs_le.mp (abs_mul_le_one (abs_mul_le_one hs_abs hs_abs) habs_cos2)
  · rw [show evaluateOrbitalAmplitude ("f", "fz3").1 ("f", "fz3").2 d
        = evaluateOrbitalAmplitude "f" "fz3" d from rfl, amp_fz3]
    have hcert1 : 0 ≤ (1 - cosT d) * (5 * cosT d ^ 2 + 5 * cosT d + 2) :=
      mul_nonneg (by linarith) (by nlinarith [sq_nonneg (2 * cosT d + 1)])
    have hcert2 : 0 ≤ (1 + cosT d) * (5 * cosT d ^ 2 - 5 * cosT d + 2) :=
      mul_nonneg (by linarith) (by nlinarith [sq_nonneg (2 * cosT d - 1)])
    constructor
    · linarith [hcert2]
    · linarith [hcert1]
  · rw [show evaluateOrbitalAmplitude ("f", "fxz2").1 ("f", "fxz2").2 d
        = evaluateOrbitalAmplitude "f" "fxz2" d from rfl, amp_fxz2]
    have hkey : (0.5 * sinT d * (5 * cosT d * cosT d - 1)) ^ 2 ≤ 1 := by
      have hrt : (0.5 * sinT d * (5 * cosT d * cosT d - 1)) ^ 2
          = 0.25 * sinT d ^ 2 * (5 * cosT d * cosT d - 1) ^ 2 := by ring
      rw [hrt, hs_sq]
      linarith [mul_nonneg (mul_self_nonneg (cosT d))
        (sq_nonneg (10 * (cosT d * cosT d) - 7)), hcc, mul_self_nonneg (cosT d)]
    have hA : |0.5 * sinT d * (5 * cosT d * cosT d - 1)| ≤ 1 :=
      (sq_le_one_iff_abs_le_one _).mp hkey
    rw [show 0.5 * sinT d * Real.cos (phi d) * (5 * cosT d * cosT d - 1)
        = 0.5 * sinT d * (5 * cosT d * cosT d - 1) * Real.cos (phi d) from by ring]
    exact abs_le.mp (abs_mul_le_one hA habs_cos1)
  · rw [show evaluateOrbitalAmplitude ("f", "fyz2").1 ("f", "fyz2").2 d
        = evaluateOrbitalAmplitude "f" "fyz2" d from rfl, amp_fyz2]
    have hkey : (0.5 * sinT d * (5 * cosT d * cosT d - 1)) ^ 2 ≤ 1 := by
      have hrt : (0.5 * sinT d * (5 * cosT d * cosT d - 1)) ^ 2
          = 0.25 * sinT d ^ 2 * (5 * cosT d * cosT d - 1) ^ 2 := by ring
      rw [hrt, hs_sq]
      linarith [mul_nonneg (mul_self_nonneg (cosT d))
        (sq_nonneg (10 * (cosT d * cosT d) - 7)), hcc, mul_self_nonneg (cosT d)]
    have hA : |0.5 * sinT d * (5 * cosT d * cosT d - 1)| ≤ 1 :=
      (sq_le_one_iff_abs_le_one _).mp hkey
    rw [show 0.5 * sinT d * Real.sin (phi d) * (5 * cosT d * cosT d - 1)
        = 0.5 * sinT d * (5 * cosT d * cosT d - 1) * Real.sin (phi d) from by ring]
    exact abs_le.mp (abs_mul_le_one hA habs_sin1)
  · rw [show evaluateOrbitalAmplitude ("f", "fzx2y2").1 ("f", "fzx2y2").2 d
        = evaluateOrbitalAmplitude "f" "fzx2y2" d from rfl, amp_fzx2y2]
    exact abs_le.mp
      (abs_mul_le_one (abs_mul_le_one (abs_mul_le_one hs_abs hs_abs) hc_abs) habs_cos2)
  · rw [show evaluateOrbitalAmplitude ("f", "fxyz").1 ("f", "fxyz").2 d
        = evaluateOrbitalAmplitude "f" "fxyz" d from rfl, amp_fxyz]
    exact abs_le.mp
      (abs_mul_le_one (abs_mul_le_one (abs_mul_le_one hs_abs hs_abs) hc_abs) habs_sin2)
  · rw [show evaluateOrbitalAmplitude ("f", "fcos3").1 ("f", "fcos3").2 d
        = evaluateOrbitalAmplitude "f" "fcos3" d from rfl, amp_fcos3]
    have hs3 : |sinT d ^ 3| ≤ 1 := by
      rw [abs_pow]
      exact pow_le_one₀ (abs_nonneg _) hs_abs
    exact abs_le.mp (abs_mul_le_one hs3 habs_cos3)
  · rw [show evaluateOrbitalAmplitude ("f", "fsin3").1 ("f", "fsin3").2 d
        = evaluateOrbitalAmplitude "f" "fsin3" d from rfl, amp_fsin3]
    have hs3 : |sinT d ^ 3| ≤ 1 := by
      rw [abs_pow]
      exact pow_le_one₀ (abs_nonneg _) hs_abs
    exact abs_le.mp (abs_mul_le_one hs3 habs_sin3)

/-- Witness for C9: the dz2 amplitude at the unit direction (0,1,0) lies
in [-1, 1]. -/
theorem amplitude_bounded_witness :
    -1 ≤ evaluateOrbitalAmplitude "d" "dz2" ⟨0, 1, 0⟩ ∧
      evaluateOrbitalAmplitude "d" "dz2" ⟨0, 1, 0⟩ ≤ 1 :=
  amplitude_bounded ("d", "dz2") (by decide) ⟨0, 1, 0⟩ (by norm_num)

end SPDF
